import Mathlib

/-!
Shallow embedding of the Lead-Generation-Agency allocation and
deduplication engine.

The embedded code comes from:
* `src/deduplication(1).py` — `DeduplicationService` (`delivered_leads` /
  `exclusive_leads` JSON dicts, `is_lead_delivered`,
  `is_lead_exclusive_delivered`, `mark_leads_as_delivered`,
  `remove_duplicates`);
* `src/services/lead_processor.py` — `LeadProcessor.process_client_delivery`
  and `LeadProcessor._get_available_leads`;
* `src/app(1).py` — the `process_delivery` route (quota update
  `max(0, remaining_quota - leads_delivered)`), the same update expression
  appears in `src/services/scheduler.py` (`_daily_processing_job`);
* `src/database(1).py` — `DatabaseManager.mark_lead_delivered`
  (`INSERT ... ON CONFLICT (email, fingerprint) DO NOTHING`).

Timestamps are modelled as integers (the code compares `datetime` values;
only their ordering and day-granularity arithmetic matter here).  Python
dicts keyed by email are modelled as association lists with
update-in-place-or-append semantics, exactly the mutation pattern of
`dict[key] = value`.  External collaborators (AI personalizer, Google
Drive, email, Notion) are modelled by success/failure flags in `Env`;
their individual failures are swallowed by the code (logged warnings), and
the flags record that.
-/

namespace LeadGen

/-- Lookup in a Python-dict-like association list: value of the first
(and, for lists built by `dinsert`, only) pair with the given key. -/
def dlookup : List (String × Int) → String → Option Int
  | [], _ => none
  | p :: rest, k => if p.1 == k then some p.2 else dlookup rest k

/-- Python `dict[k] = v`: replace the value at the first occurrence of the
key, or append a new pair if the key is absent. -/
def dinsert : List (String × Int) → String → Int → List (String × Int)
  | [], k, v => [(k, v)]
  | p :: rest, k, v => if p.1 == k then (k, v) :: rest else p :: dinsert rest k v

/-- State of `DeduplicationService`: the two JSON-backed dicts
`delivered_leads` (email ↦ last delivery time) and `exclusive_leads`
(email ↦ time of exclusive delivery), from `src/deduplication(1).py`. -/
structure DedupState where
  delivered_leads : List (String × Int)
  exclusive_leads : List (String × Int)
deriving DecidableEq

/-- Fresh service state: both dicts empty. -/
def emptyDedup : DedupState := ⟨[], []⟩

/-- `DeduplicationService.is_lead_delivered` (src/deduplication(1).py:61-70):
true iff the email has a delivery entry and
`delivery_date > now - DEDUPLICATION_WINDOW_DAYS`. -/
def is_lead_delivered (s : DedupState) (windowDays now : Int) (email : String) : Bool :=
  match dlookup s.delivered_leads email with
  | none => false
  | some deliveryDate => decide (deliveryDate > now - windowDays)

/-- `DeduplicationService.is_lead_exclusive_delivered`
(src/deduplication(1).py:72-74): membership in the `exclusive_leads` dict,
with no time window. -/
def is_lead_exclusive_delivered (s : DedupState) (email : String) : Bool :=
  (dlookup s.exclusive_leads email).isSome

/-- `DeduplicationService.mark_leads_as_delivered`
(src/deduplication(1).py:76-97): for each email set
`delivered_leads[email] = current_time` and, if `exclusive`, also
`exclusive_leads[email] = current_time`.  The loop touches the two
independent dicts, so it is expressed as one fold per dict. -/
def mark_leads_as_delivered (s : DedupState) (emails : List String)
    (exclusive : Bool) (now : Int) : DedupState :=
  { delivered_leads := emails.foldl (fun m e => dinsert m e now) s.delivered_leads
    exclusive_leads :=
      if exclusive then emails.foldl (fun m e => dinsert m e now) s.exclusive_leads
      else s.exclusive_leads }

/-- A lead row as stored in the processed-leads JSON files: email is the
identity, `processed_at` the ingestion timestamp; the remaining columns
(first/last name, title, company, linkedin) are abstracted as `payload`. -/
structure LeadData where
  email : String
  company : String
  processed_at : Int
  payload : Nat
deriving DecidableEq

/-- The client dict handed to `process_client_delivery` (rows of the
`clients` table / `data/clients.json`): only the fields the allocation
path reads. -/
structure ClientCfg where
  exclusive : Bool
  remaining_quota : Int
  lead_count : Int
  plan : String
deriving DecidableEq

/-- The dead priority computation of `_get_available_leads`
(src/services/lead_processor.py:231-233):
`{'premium': 1, 'pro': 2, 'basic': 3}.get(plan, 3)`. -/
def plan_priority (plan : String) : Int :=
  if plan == "premium" then 1
  else if plan == "pro" then 2
  else if plan == "basic" then 3
  else 3

/-- `LeadProcessor._get_available_leads`
(src/services/lead_processor.py:206-240): keep each pool lead whose email
is not delivered within the window; exclusive clients additionally skip
leads present in the exclusive index; non-exclusive clients do not consult
the exclusive index.  The client priority is computed and never used,
exactly as in the source. -/
def get_available_leads (s : DedupState) (windowDays now : Int)
    (client : ClientCfg) (pool : List LeadData) : List LeadData :=
  let available := pool.filter (fun lead =>
    if is_lead_delivered s windowDays now lead.email then false
    else if client.exclusive then !(is_lead_exclusive_delivered s lead.email)
    else true)
  let _client_priority := plan_priority client.plan
  available

/-- Python list slice `l[:n]`, including the negative-stop case:
`l[:n]` with `n < 0` keeps the first `len(l) + n` elements (or none). -/
def pySliceTo {α : Type} (l : List α) (n : Int) : List α :=
  if 0 ≤ n then l.take n.toNat
  else l.take (l.length - (-n).toNat)

/-- Outcome flags for the external collaborators of one delivery run.
`personalizeOk` models the per-lead try/except in the personalization loop
(failing leads are skipped with `continue`); `csvOk` models the
folder-creation / `to_csv` step, whose failure propagates; Drive, email
and Notion failures are caught and logged, so their flags have no effect
on the engine state; `quotaWriteOk` models `db.update_client_quota` in the
`process_delivery` route. -/
structure Env where
  personalizeOk : LeadData → Bool
  csvOk : Bool
  driveOk : Bool
  emailOk : Bool
  notionOk : Bool
  quotaWriteOk : Bool

/-- `LeadProcessor.process_client_delivery`
(src/services/lead_processor.py:82-204), returning the dedup state as of
the return/raise together with the delivered count or the raised error:
1. leads = `_get_available_leads`; raise if empty;
2. `max_leads = min(remaining_quota, lead_count)`; slice `[:max_leads]`;
3. personalization loop, failing leads skipped; raise if none survive;
4. CSV write (failure propagates); Drive/email/Notion failures swallowed;
5. `mark_leads_as_delivered(emails)` — note: the `exclusive` argument is
   not passed, so it defaults to `False`. -/
def process_client_delivery (env : Env) (s : DedupState) (windowDays now : Int)
    (client : ClientCfg) (pool : List LeadData) : DedupState × Except String Nat :=
  let leads_to_deliver := get_available_leads s windowDays now client pool
  if leads_to_deliver.isEmpty then
    (s, .error "No leads available for delivery")
  else
    let max_leads := min client.remaining_quota client.lead_count
    let sliced := pySliceTo leads_to_deliver max_leads
    let personalized_leads := sliced.filter env.personalizeOk
    if personalized_leads.isEmpty then
      (s, .error "No leads could be processed successfully")
    else if !env.csvOk then
      (s, .error "csv write failed")
    else
      let s2 := mark_leads_as_delivered s (personalized_leads.map (·.email)) false now
      (s2, .ok personalized_leads.length)

/-- The quota update expression shared by the `process_delivery` route
(src/app(1).py:192) and `SchedulerService._daily_processing_job`
(src/services/scheduler.py:104):
`max(0, remaining_quota - leads_delivered)`. -/
def commitQuota (q : Int) (n : Nat) : Int :=
  max 0 (q - (n : Int))

/-- Observable result of one `process_delivery` request: final dedup
state, final stored quota, delivered count, and the error of a failed
(HTTP 500) request if any. -/
structure DeliveryOutcome where
  dedup : DedupState
  remaining_quota : Int
  leads_delivered : Nat
  error : Option String
deriving DecidableEq

/-- The `process_delivery` route (src/app(1).py:179-203): run
`process_client_delivery`; on success write
`max(0, remaining_quota - leads_delivered)` back via
`db.update_client_quota`, whose own failure leaves the stored quota
unchanged but does not undo the delivery already performed. -/
def process_delivery (env : Env) (s : DedupState) (windowDays now : Int)
    (client : ClientCfg) (pool : List LeadData) : DeliveryOutcome :=
  match process_client_delivery env s windowDays now client pool with
  | (s2, .error e) => ⟨s2, client.remaining_quota, 0, some e⟩
  | (s2, .ok n) =>
      if env.quotaWriteOk then
        ⟨s2, commitQuota client.remaining_quota n, n, none⟩
      else
        ⟨s2, client.remaining_quota, n, some "update_client_quota failed"⟩

/-- A row of the `delivered_leads` table (src/database(1).py:111-120). -/
structure DedupRow where
  email : String
  fingerprint : String
  exclusive : Bool
  delivered_at : Int
deriving DecidableEq

/-- `DatabaseManager.mark_lead_delivered` (src/database(1).py:261-270):
`INSERT INTO delivered_leads ... ON CONFLICT (email, fingerprint) DO
NOTHING` — append a row unless one with the same (email, fingerprint)
already exists. -/
def mark_lead_delivered (tbl : List DedupRow) (email fingerprint : String)
    (exclusive : Bool) (t : Int) : List DedupRow :=
  if tbl.any (fun r => r.email == email && r.fingerprint == fingerprint) then tbl
  else tbl ++ [⟨email, fingerprint, exclusive, t⟩]

/-- `datetime.fromisoformat` applied to a stored date string: `some t`
models a well-formed ISO string denoting time `t`, `none` a malformed
string, on which the call raises `ValueError`. -/
def parse_iso : Option Int → Except String Int
  | some t => .ok t
  | none => .error "Invalid isoformat string"

/-- `df.drop_duplicates(subset=['email'], keep='first')`: keep the first
row for each email, given the set of emails already seen. -/
def dropDupBy (seen : List String) : List LeadData → List LeadData
  | [] => []
  | r :: rest =>
      if seen.contains r.email then dropDupBy seen rest
      else r :: dropDupBy (r.email :: seen) rest

/-- Internal-duplicate removal of `remove_duplicates`. -/
def drop_duplicates_by_email (df : List LeadData) : List LeadData :=
  dropDupBy [] df

/-- The body of the `try` block of `DeduplicationService.remove_duplicates`
(src/deduplication(1).py:29-55): drop internal duplicates by email, build
`recent_delivered` by parsing every stored delivery date (any malformed
date raises), then filter out rows whose email is in that set.
`rawDelivered` is the `delivered_leads` dict as read from the JSON file,
dates still in string form. -/
def remove_duplicates_core (rawDelivered : List (String × Option Int))
    (windowDays now : Int) (df : List LeadData) : Except String (List LeadData) := do
  let df_deduplicated := drop_duplicates_by_email df
  let recent_delivered ← rawDelivered.foldlM
    (fun (acc : List String) p => do
      let d ← parse_iso p.2
      pure (if d > now - windowDays then p.1 :: acc else acc))
    []
  pure (df_deduplicated.filter (fun r => !(recent_delivered.contains r.email)))

/-- `DeduplicationService.remove_duplicates` (src/deduplication(1).py:27-59):
the computation above wrapped in try/except — any exception is logged and
the original DataFrame is returned unchanged. -/
def remove_duplicates (rawDelivered : List (String × Option Int))
    (windowDays now : Int) (df : List LeadData) : List LeadData :=
  match remove_duplicates_core rawDelivered windowDays now df with
  | .ok result => result
  | .error _ => df

/-- The discipline the engine's cap guarantees across a run of successful
deliveries: each batch size is at most the quota remaining when it is
committed. -/
def Capped : Int → List Nat → Prop
  | _, [] => True
  | q, n :: rest => (n : Int) ≤ q ∧ Capped (q - n) rest

/-- Sum of batch sizes as an integer. -/
def sumSizes : List Nat → Int
  | [] => 0
  | n :: rest => (n : Int) + sumSizes rest

/-! ## Dictionary lemmas -/

theorem dlookup_dinsert_self (m : List (String × Int)) (k : String) (v : Int) :
    dlookup (dinsert m k v) k = some v := by
  induction m with
  | nil => simp [dinsert, dlookup]
  | cons p rest ih =>
      by_cases h : p.1 == k
      · simp [dinsert, h, dlookup]
      · simp [dinsert, h, dlookup, ih]

theorem dinsert_of_dlookup_eq (m : List (String × Int)) (k : String) (v : Int)
    (h : dlookup m k = some v) : dinsert m k v = m := by
  induction m with
  | nil => simp [dlookup] at h
  | cons p rest ih =>
      by_cases hk : p.1 == k
      · have hkk : p.1 = k := by simpa using hk
        simp [dlookup, hk] at h
        simp [dinsert, hk, ← hkk, ← h]
      · simp [dlookup, hk] at h
        simp [dinsert, hk, ih h]

theorem dlookup_dinsert_preserve (m : List (String × Int)) (e k : String) (t : Int)
    (h : dlookup m e = some t) : dlookup (dinsert m k t) e = some t := by
  by_cases hek : k = e
  · subst hek; exact dlookup_dinsert_self m k t
  · induction m with
    | nil => simp [dlookup] at h
    | cons p rest ih =>
        by_cases hpk : p.1 == k
        · have hpe : ¬(p.1 == e) := by
            simp only [beq_iff_eq] at hpk ⊢
            rw [hpk]; exact hek
          simp [dlookup, hpe] at h
          simp [dinsert, hpk, dlookup, hpe, beq_iff_eq, hek, h]
        · by_cases hpe : p.1 == e
          · simp [dlookup, hpe] at h
            simp [dinsert, hpk, dlookup, hpe, h]
          · simp [dlookup, hpe] at h
            simp [dinsert, hpk, dlookup, hpe, ih h]

theorem dlookup_foldl_dinsert_preserve (emails : List String)
    (m : List (String × Int)) (e : String) (t : Int)
    (h : dlookup m e = some t) :
    dlookup (emails.foldl (fun m x => dinsert m x t) m) e = some t := by
  induction emails generalizing m with
  | nil => simpa using h
  | cons x rest ih =>
      simp only [List.foldl_cons]
      exact ih (dinsert m x t) (dlookup_dinsert_preserve m e x t h)

theorem dlookup_foldl_dinsert_of_mem (emails : List String)
    (m : List (String × Int)) (e : String) (t : Int) (he : e ∈ emails) :
    dlookup (emails.foldl (fun m x => dinsert m x t) m) e = some t := by
  induction emails generalizing m with
  | nil => cases he
  | cons x rest ih =>
      simp only [List.foldl_cons]
      rcases List.mem_cons.mp he with h | h
      · subst h
        exact dlookup_foldl_dinsert_preserve rest (dinsert m e t) e t
          (dlookup_dinsert_self m e t)
      · exact ih (dinsert m x t) h

theorem foldl_dinsert_of_all_eq (emails : List String)
    (m : List (String × Int)) (t : Int)
    (h : ∀ e ∈ emails, dlookup m e = some t) :
    emails.foldl (fun m x => dinsert m x t) m = m := by
  induction emails with
  | nil => rfl
  | cons x rest ih =>
      have hx : dinsert m x t = m :=
        dinsert_of_dlookup_eq m x t (h x (List.mem_cons_self x rest))
      simp only [List.foldl_cons, hx]
      exact ih (fun e he => h e (List.mem_cons_of_mem x he))

theorem mark_leads_as_delivered_idem (s : DedupState) (emails : List String)
    (exclusive : Bool) (t : Int) :
    mark_leads_as_delivered (mark_leads_as_delivered s emails exclusive t)
        emails exclusive t =
      mark_leads_as_delivered s emails exclusive t := by
  have hd : ∀ (m : List (String × Int)),
      emails.foldl (fun m x => dinsert m x t)
          (emails.foldl (fun m x => dinsert m x t) m) =
        emails.foldl (fun m x => dinsert m x t) m :=
    fun m => foldl_dinsert_of_all_eq emails _ t
      (fun e he => dlookup_foldl_dinsert_of_mem emails m e t he)
  unfold mark_leads_as_delivered
  cases exclusive <;> simp [hd]

theorem mark_lead_delivered_idem (tbl : List DedupRow) (email fingerprint : String)
    (exclusive : Bool) (t : Int) :
    mark_lead_delivered (mark_lead_delivered tbl email fingerprint exclusive t)
        email fingerprint exclusive t =
      mark_lead_delivered tbl email fingerprint exclusive t := by
  unfold mark_lead_delivered
  by_cases h : tbl.any (fun r => r.email == email && r.fingerprint == fingerprint)
  · simp [h]
  · simp [h]

/-! ## Concrete inputs used by counterexamples and witnesses -/

/-- A concrete lead with email `a@x.com`, ingested at time 5. -/
def leadA : LeadData := ⟨"a@x.com", "Acme", 5, 0⟩

/-- A concrete lead with email `b@x.com`, ingested at time 3. -/
def leadB : LeadData := ⟨"b@x.com", "Beta", 3, 0⟩

/-- A concrete lead with email `c@x.com`, ingested at time 7. -/
def leadC : LeadData := ⟨"c@x.com", "Ceta", 7, 0⟩

/-- A non-exclusive client with quota 5 and lead_count 5. -/
def clientF : ClientCfg := ⟨false, 5, 5, "basic"⟩

/-- An exclusive client with quota 5 and lead_count 5. -/
def clientE : ClientCfg := ⟨true, 5, 5, "premium"⟩

/-- A non-exclusive client whose `lead_count` (and hence initial quota) was
created negative: `add_client` (src/app(1).py:148-151) stores
`int(data['lead_count'])` unvalidated into both fields. -/
def clientNeg : ClientCfg := ⟨false, -1, -1, "basic"⟩

/-- A non-exclusive client with exhausted quota. -/
def clientZero : ClientCfg := ⟨false, 0, 5, "basic"⟩

/-- Every external collaborator succeeds. -/
def envAll : Env := ⟨fun _ => true, true, true, true, true, true⟩

/-- All collaborators succeed except `db.update_client_quota`. -/
def envQuotaFail : Env := ⟨fun _ => true, true, true, true, true, false⟩

/-- Dedup state after an exclusive delivery of `a@x.com` at time 0: the
email is in both the delivered and the exclusive index. -/
def sExcl : DedupState := ⟨[("a@x.com", 0)], [("a@x.com", 0)]⟩

/-- All collaborators succeed except the CSV write (`to_csv` /
`os.makedirs`), whose failure propagates out of
`process_client_delivery`. -/
def envCsvFail : Env := ⟨fun _ => true, false, true, true, true, true⟩

/-- Every raising path of `process_client_delivery` occurs before the
dedup write, so a failing run leaves the dedup state untouched. -/
theorem process_client_delivery_error_state (env : Env) (s : DedupState)
    (w now : Int) (client : ClientCfg) (pool : List LeadData) (e : String)
    (h : (process_client_delivery env s w now client pool).2 = .error e) :
    (process_client_delivery env s w now client pool).1 = s := by
  unfold process_client_delivery at h ⊢
  split_ifs at h ⊢ <;> simp_all <;> split_ifs at h ⊢ <;> simp_all

/-- Claim C2 (amended): a failure raised inside `process_client_delivery`
leaves the whole observable state unchanged — dedup index as before,
stored quota as before, nothing delivered — because every raising path
precedes the dedup write and the caller only updates the quota after
success.  (The rollback guarantee does not extend to a failure of the
quota write itself; see the counterexample.) -/
theorem claim_C2_amended (env : Env) (s : DedupState) (w now : Int)
    (client : ClientCfg) (pool : List LeadData) (e : String)
    (h : (process_client_delivery env s w now client pool).2 = .error e) :
    process_delivery env s w now client pool =
      ⟨s, client.remaining_quota, 0, some e⟩ := by
  have h1 := process_client_delivery_error_state env s w now client pool e h
  unfold process_delivery
  rcases hpc : process_client_delivery env s w now client pool with ⟨s2, r⟩
  rw [hpc] at h h1
  simp only at h h1
  subst h h1
  rfl

/-- Witness for the amended C2: a CSV-write failure aborts the run with
the dedup index, quota and delivered count untouched. -/
theorem claim_C2_witness :
    process_delivery envCsvFail emptyDedup 30 0 clientF [leadA] =
      ⟨emptyDedup, 5, 0, some "csv write failed"⟩ :=
  claim_C2_amended envCsvFail emptyDedup 30 0 clientF [leadA] "csv write failed" rfl

/-- Counterexample to claim C2 as stated: when `db.update_client_quota`
fails after `process_client_delivery` has succeeded, the request as a
whole fails (HTTP 500) yet the dedup entry for the delivered lead has been
written and is not rolled back — partial delivery state exists. -/
theorem claim_C2_counterexample :
    (process_delivery envQuotaFail emptyDedup 30 0 clientF [leadA]).error =
        some "update_client_quota failed" ∧
    (process_delivery envQuotaFail emptyDedup 30 0 clientF [leadA]).dedup.delivered_leads =
        [("a@x.com", 0)] :=
  ⟨rfl, rfl⟩

/-- Membership in the candidate list computed by `_get_available_leads`:
a lead qualifies iff it is in the pool, its email is not delivered within
the window, and — only when the requesting client is exclusive — its email
is absent from the exclusive index. -/
theorem mem_get_available_leads (s : DedupState) (w now : Int)
    (client : ClientCfg) (pool : List LeadData) (lead : LeadData) :
    lead ∈ get_available_leads s w now client pool ↔
      lead ∈ pool ∧
      is_lead_delivered s w now lead.email = false ∧
      (client.exclusive = true → is_lead_exclusive_delivered s lead.email = false) := by
  unfold get_available_leads
  simp only [List.mem_filter]
  by_cases h1 : is_lead_delivered s w now lead.email
  · simp [h1]
  · by_cases h2 : client.exclusive
    · by_cases h3 : is_lead_exclusive_delivered s lead.email
      · simp [h1, h2, h3]
      · simp [h1, h2, h3]
    · simp [h1, h2]

/-- Counterexample to claim C1 as stated: `a@x.com` carries an exclusive
dedup entry (delivered exclusively at time 0), yet at time 31 — one day
past the 30-day window — a non-exclusive client receives it: it appears in
the client's available list and a run of `process_client_delivery`
delivers it. -/
theorem claim_C1_counterexample :
    get_available_leads sExcl 30 31 clientF [leadA] = [leadA] ∧
    (process_client_delivery envAll sExcl 30 31 clientF [leadA]).2 = .ok 1 :=
  ⟨by decide, rfl⟩

/-- Claim C1 (amended): an exclusive dedup entry permanently blocks the
lead only from clients whose own exclusive flag is true — for those, at
every query time, regardless of how long ago the exclusive delivery
happened, the lead is excluded from the available list.  Clients with
`exclusive = false` are blocked only by the time-windowed delivered
check.  (The code records no lock holder, so the blocking applies to every
exclusive requester.) -/
theorem claim_C1_amended (s : DedupState) (w now : Int) (client : ClientCfg)
    (pool : List LeadData) (lead : LeadData)
    (hx : is_lead_exclusive_delivered s lead.email = true)
    (hc : client.exclusive = true) :
    lead ∉ get_available_leads s w now client pool := by
  intro hmem
  have h := (mem_get_available_leads s w now client pool lead).mp hmem
  have hfalse := h.2.2 hc
  rw [hfalse] at hx
  cases hx

/-- Witness for the amended C1: 1000 time units after the exclusive
delivery at time 0 — far beyond the 30-day window — the lead is still
excluded from an exclusive client's available list. -/
theorem claim_C1_witness :
    leadA ∉ get_available_leads sExcl 30 1000 clientE [leadA] :=
  claim_C1_amended sExcl 30 1000 clientE [leadA] leadA (by decide) rfl

/-- Dedup state after a non-exclusive delivery of `a@x.com` at time 0:
the email is in the delivered index only. -/
def sShared : DedupState := ⟨[("a@x.com", 0)], []⟩

/-- Claim C8: a non-exclusive lead delivered at time `T` is ineligible for
redelivery to any client at every query time strictly before
`T + windowDays`, and eligible again (present in any client's available
list whenever it is in the pool) at query times after `T + windowDays`. -/
theorem claim_C8_window_eligibility (s : DedupState) (w now T : Int)
    (client : ClientCfg) (pool : List LeadData) (lead : LeadData)
    (hdel : dlookup s.delivered_leads lead.email = some T)
    (hexcl : dlookup s.exclusive_leads lead.email = none)
    (hpool : lead ∈ pool) :
    (now < T + w → lead ∉ get_available_leads s w now client pool) ∧
    (T + w < now → lead ∈ get_available_leads s w now client pool) := by
  constructor
  · intro hlt hmem
    have h := (mem_get_available_leads s w now client pool lead).mp hmem
    have hnot := h.2.1
    unfold is_lead_delivered at hnot
    rw [hdel] at hnot
    simp at hnot
    omega
  · intro hgt
    refine (mem_get_available_leads s w now client pool lead).mpr ⟨hpool, ?_, ?_⟩
    · unfold is_lead_delivered
      rw [hdel]
      simp
      omega
    · intro _
      unfold is_lead_exclusive_delivered
      rw [hexcl]
      rfl

/-- Witness for C8: `a@x.com` delivered non-exclusively at time 0 with a
30-day window is unavailable at time 5 and available again at time 31. -/
theorem claim_C8_witness :
    leadA ∉ get_available_leads sShared 30 5 clientF [leadA] ∧
    leadA ∈ get_available_leads sShared 30 31 clientF [leadA] :=
  ⟨(claim_C8_window_eligibility sShared 30 5 0 clientF [leadA] leadA (by decide)
      (by decide) (by decide)).1 (by decide),
   (claim_C8_window_eligibility sShared 30 31 0 clientF [leadA] leadA (by decide)
      (by decide) (by decide)).2 (by decide)⟩

/-- Counterexample to claim C9 as stated: with an empty dedup index, a
pool whose first lead was ingested at time 5 and second at time 3 is
returned in that same order — the candidate list is not sorted by
ascending ingestion timestamp. -/
theorem claim_C9_counterexample :
    get_available_leads emptyDedup 30 10 clientF [leadA, leadB] = [leadA, leadB] ∧
    ¬ (leadA.processed_at ≤ leadB.processed_at) := by
  exact ⟨by decide, by decide⟩

/-- Claim C9 (amended): `_get_available_leads` hands the eligible
candidates over in pool-enumeration order — the result is an
order-preserving sublist of the input pool, with no timestamp sort — and
the computed plan priority is dead: the result does not depend on the
client's plan. -/
theorem claim_C9_amended (s : DedupState) (w now : Int) (client : ClientCfg)
    (pool : List LeadData) (p2 : String) :
    (get_available_leads s w now client pool).Sublist pool ∧
    get_available_leads s w now { client with plan := p2 } pool =
      get_available_leads s w now client pool := by
  constructor
  · exact List.filter_sublist pool
  · rfl

/-- Characterization of a successful `process_client_delivery` run: it
succeeds exactly when some lead is available, the sliced batch survives
the personalization filter, and the CSV write succeeds; the delivered
count is then the length of the filtered slice. -/
theorem pcd_ok_iff (env : Env) (s : DedupState) (w now : Int)
    (client : ClientCfg) (pool : List LeadData) (n : Nat) :
    (process_client_delivery env s w now client pool).2 = .ok n ↔
      ¬(get_available_leads s w now client pool).isEmpty ∧
      ¬((pySliceTo (get_available_leads s w now client pool)
          (min client.remaining_quota client.lead_count)).filter
            env.personalizeOk).isEmpty ∧
      env.csvOk = true ∧
      n = ((pySliceTo (get_available_leads s w now client pool)
          (min client.remaining_quota client.lead_count)).filter
            env.personalizeOk).length := by
  unfold process_client_delivery
  by_cases h1 : (get_available_leads s w now client pool).isEmpty
  · simp [h1]
  · by_cases h2 : ((pySliceTo (get_available_leads s w now client pool)
        (min client.remaining_quota client.lead_count)).filter
          env.personalizeOk).isEmpty
    · simp [h1, h2]
    · by_cases h3 : env.csvOk
      · simp [h1, h2, h3, eq_comm]
      · simp [h1, h2, h3]

/-- On a successful run, the delivered count is bounded by the batch cap
`min(remaining_quota, lead_count)`, provided the cap is non-negative (the
slice `[:cap]` then keeps at most `cap` leads and the personalization
filter can only shrink it). -/
theorem pcd_ok_length_le_cap (env : Env) (s : DedupState) (w now : Int)
    (client : ClientCfg) (pool : List LeadData) (n : Nat)
    (hcap : 0 ≤ min client.remaining_quota client.lead_count)
    (h : (process_client_delivery env s w now client pool).2 = .ok n) :
    (n : Int) ≤ min client.remaining_quota client.lead_count := by
  obtain ⟨-, -, -, hn⟩ := (pcd_ok_iff env s w now client pool n).mp h
  subst hn
  have hfilter : (List.filter env.personalizeOk
      (pySliceTo (get_available_leads s w now client pool)
        (min client.remaining_quota client.lead_count))).length ≤
      (pySliceTo (get_available_leads s w now client pool)
        (min client.remaining_quota client.lead_count)).length :=
    List.length_filter_le _ _
  have hslice : (pySliceTo (get_available_leads s w now client pool)
      (min client.remaining_quota client.lead_count)).length ≤
      (min client.remaining_quota client.lead_count).toNat := by
    unfold pySliceTo
    rw [if_pos hcap]
    simp
  have := le_trans hfilter hslice
  omega

/-- Claim C3 (amended), two parts.  First: for a non-negative initial
quota and any run of committed batch sizes each bounded by the quota
remaining at its commit (the discipline the engine's cap enforces),
iterating the stored update `max(0, q - n)` yields exactly
`initial - Σ sizes`, which is never negative — the `max 0` clamp never
fires on such runs.  Second: any single successful `process_delivery`
request against a client with non-negative quota and lead_count obeys that
discipline: it delivers at most `remaining_quota` leads and stores exactly
`remaining_quota - delivered`.  (An over-quota commit would be clamped to
zero by `max(0, ...)`, not rejected; see the counterexample.) -/
theorem claim_C3_amended :
    (∀ (q0 : Int) (sizes : List Nat), 0 ≤ q0 → Capped q0 sizes →
      List.foldl commitQuota q0 sizes = q0 - sumSizes sizes ∧
      0 ≤ List.foldl commitQuota q0 sizes) ∧
    (∀ (env : Env) (s : DedupState) (w now : Int) (client : ClientCfg)
        (pool : List LeadData),
      0 ≤ client.remaining_quota → 0 ≤ client.lead_count →
      (process_delivery env s w now client pool).error = none →
      ((process_delivery env s w now client pool).leads_delivered : Int) ≤
          client.remaining_quota ∧
      (process_delivery env s w now client pool).remaining_quota =
        client.remaining_quota -
          (process_delivery env s w now client pool).leads_delivered) := by
  constructor
  · intro q0 sizes
    induction sizes generalizing q0 with
    | nil => intro hq _; simp [sumSizes, hq]
    | cons x rest ih =>
        intro hq hcapped
        obtain ⟨hx, hrest⟩ := hcapped
        have hstep : commitQuota q0 x = q0 - x := by
          unfold commitQuota; omega
        have hq1 : 0 ≤ q0 - x := by omega
        obtain ⟨ihsum, ihpos⟩ := ih (q0 - x) hq1 hrest
        constructor
        · simp only [List.foldl_cons, hstep, ihsum, sumSizes]
          omega
        · simp only [List.foldl_cons, hstep]
          exact ihpos
  · intro env s w now client pool hq hlc herr
    have hcap : 0 ≤ min client.remaining_quota client.lead_count :=
      le_min hq hlc
    rcases hpc : process_client_delivery env s w now client pool with ⟨s2, r⟩
    cases r with
    | error e =>
        have hpd : process_delivery env s w now client pool =
            ⟨s2, client.remaining_quota, 0, some e⟩ := by
          unfold process_delivery
          rw [hpc]
        rw [hpd] at herr
        simp at herr
    | ok n =>
        have hn : (n : Int) ≤ min client.remaining_quota client.lead_count :=
          pcd_ok_length_le_cap env s w now client pool n hcap (by rw [hpc])
        have hnq : (n : Int) ≤ client.remaining_quota :=
          le_trans hn (min_le_left _ _)
        cases hwq : env.quotaWriteOk with
        | false =>
            have hpd : process_delivery env s w now client pool =
                ⟨s2, client.remaining_quota, n, some "update_client_quota failed"⟩ := by
              unfold process_delivery
              rw [hpc]
              simp [hwq]
            rw [hpd] at herr
            simp at herr
        | true =>
            have hpd : process_delivery env s w now client pool =
                ⟨s2, commitQuota client.remaining_quota n, n, none⟩ := by
              unfold process_delivery
              rw [hpc]
              simp [hwq]
            rw [hpd]
            refine ⟨hnq, ?_⟩
            unfold commitQuota
            simp
            omega

/-- Witness for the amended C3: two capped commits of sizes 2 and 3
against quota 5 leave exactly 0, and a concrete successful
`process_delivery` run delivers 1 of quota 5 and stores 4. -/
theorem claim_C3_witness :
    (List.foldl commitQuota 5 [2, 3] = 5 - sumSizes [2, 3] ∧
      0 ≤ List.foldl commitQuota 5 [2, 3]) ∧
    (((process_delivery envAll emptyDedup 30 0 clientF [leadA]).leads_delivered : Int) ≤
        clientF.remaining_quota ∧
      (process_delivery envAll emptyDedup 30 0 clientF [leadA]).remaining_quota =
        clientF.remaining_quota -
          (process_delivery envAll emptyDedup 30 0 clientF [leadA]).leads_delivered) :=
  ⟨claim_C3_amended.1 5 [2, 3] (by norm_num)
      ⟨by norm_num, by norm_num, trivial⟩,
   claim_C3_amended.2 envAll emptyDedup 30 0 clientF [leadA] (by decide) (by decide) rfl⟩

/-- Counterexample to claim C3 as stated: a client whose stored quota is
-1 (creatable through the unvalidated `add_client` route) delivers 2 leads
in a run that succeeds — the commit that would drive `remaining_quota` to
-3 is not rejected; the stored quota is clamped to 0 by `max(0, ...)`. -/
theorem claim_C3_counterexample :
    (process_delivery envAll emptyDedup 30 0 clientNeg [leadA, leadB, leadC]).error =
        none ∧
    (process_delivery envAll emptyDedup 30 0 clientNeg [leadA, leadB, leadC]).leads_delivered =
        2 ∧
    (process_delivery envAll emptyDedup 30 0 clientNeg [leadA, leadB, leadC]).remaining_quota =
        0 ∧
    clientNeg.remaining_quota -
        ((process_delivery envAll emptyDedup 30 0 clientNeg
          [leadA, leadB, leadC]).leads_delivered : Int) < 0 := by
  refine ⟨rfl, rfl, rfl, ?_⟩
  decide

/-- Counterexample to claim C5 as stated: a client with
`remaining_quota = 0` (cap `min(0, 5) = 0`) and a non-empty eligible pool
makes `process_client_delivery` raise
`ValueError("No leads could be processed successfully")` — it does not
return an empty `quota_exhausted` result. -/
theorem claim_C5_counterexample :
    (process_client_delivery envAll emptyDedup 30 0 clientZero [leadA]).2 =
      .error "No leads could be processed successfully" :=
  rfl

/-- Claim C5 (amended), two parts.  First: the batch cap is
`min(remaining_quota, lead_count)` — the client's stored `lead_count`, not
a plan-level `max_leads` (the `PLAN_CONFIGURATIONS` values are never
consulted) — and when the cap is zero every run raises a `ValueError`
(either "No leads available for delivery" or "No leads could be processed
successfully") instead of returning an empty `quota_exhausted` result.
Second: when the cap is non-negative, a successful run delivers at most
the cap. -/
theorem claim_C5_amended :
    (∀ (env : Env) (s : DedupState) (w now : Int) (client : ClientCfg)
        (pool : List LeadData),
      min client.remaining_quota client.lead_count = 0 →
      ∃ e, (process_client_delivery env s w now client pool).2 = .error e) ∧
    (∀ (env : Env) (s : DedupState) (w now : Int) (client : ClientCfg)
        (pool : List LeadData) (n : Nat),
      0 ≤ min client.remaining_quota client.lead_count →
      (process_client_delivery env s w now client pool).2 = .ok n →
      (n : Int) ≤ min client.remaining_quota client.lead_count) := by
  constructor
  · intro env s w now client pool hcap
    by_cases h1 : (get_available_leads s w now client pool).isEmpty
    · exact ⟨"No leads available for delivery", by simp [process_client_delivery, h1]⟩
    · refine ⟨"No leads could be processed successfully", ?_⟩
      have hempty : (pySliceTo (get_available_leads s w now client pool)
          (min client.remaining_quota client.lead_count)).filter
            env.personalizeOk = [] := by
        rw [hcap]
        simp [pySliceTo]
      simp [process_client_delivery, h1, hempty]
  · intro env s w now client pool n hcap h
    exact pcd_ok_length_le_cap env s w now client pool n hcap h

/-- Witness for the amended C5: with cap `min(0, 5) = 0` the run raises,
and a successful run of a quota-5 client delivers at most 5. -/
theorem claim_C5_witness :
    (∃ e, (process_client_delivery envAll emptyDedup 30 0 clientZero [leadA]).2 =
      .error e) ∧
    ((1 : Nat) : Int) ≤ min clientF.remaining_quota clientF.lead_count :=
  ⟨claim_C5_amended.1 envAll emptyDedup 30 0 clientZero [leadA] (by decide),
   claim_C5_amended.2 envAll emptyDedup 30 0 clientF [leadA] 1 (by decide) rfl⟩

/-- Counterexample to claim C6 as stated: with zero eligible leads (empty
pool), `process_client_delivery` raises
`ValueError("No leads available for delivery")` — the "nothing to
deliver" outcome is encoded as an exception, not an ordinary result. -/
theorem claim_C6_counterexample :
    (process_client_delivery envAll emptyDedup 30 0 clientF []).2 =
      .error "No leads available for delivery" :=
  rfl

/-- Claim C6 (amended): under-filling is not an error — whenever at least
one eligible lead exists, the cap is positive, personalization succeeds on
the eligible leads and the CSV write succeeds, the run returns an ordinary
value delivering all leads that qualify up to the cap (possibly fewer than
the cap).  But the zero-eligible-leads outcome is encoded as a raised
`ValueError`, not as an ordinary empty result. -/
theorem claim_C6_amended (env : Env) (s : DedupState) (w now : Int)
    (client : ClientCfg) (pool : List LeadData)
    (hcsv : env.csvOk = true)
    (hpers : ∀ l ∈ get_available_leads s w now client pool,
      env.personalizeOk l = true)
    (hne : get_available_leads s w now client pool ≠ [])
    (hcap : 0 < min client.remaining_quota client.lead_count) :
    (process_client_delivery env s w now client pool).2 =
      .ok (pySliceTo (get_available_leads s w now client pool)
        (min client.remaining_quota client.lead_count)).length := by
  have hcap0 : (0 : Int) ≤ min client.remaining_quota client.lead_count :=
    le_of_lt hcap
  have hps : pySliceTo (get_available_leads s w now client pool)
      (min client.remaining_quota client.lead_count) =
      (get_available_leads s w now client pool).take
        (min client.remaining_quota client.lead_count).toNat := by
    unfold pySliceTo
    rw [if_pos hcap0]
  have hsub : ∀ l ∈ pySliceTo (get_available_leads s w now client pool)
      (min client.remaining_quota client.lead_count),
      env.personalizeOk l = true := by
    intro l hl
    apply hpers
    rw [hps] at hl
    exact (List.take_sublist _ _).subset hl
  have hfe : (pySliceTo (get_available_leads s w now client pool)
      (min client.remaining_quota client.lead_count)).filter env.personalizeOk =
      pySliceTo (get_available_leads s w now client pool)
        (min client.remaining_quota client.lead_count) :=
    List.filter_eq_self.mpr hsub
  have hnonempty : pySliceTo (get_available_leads s w now client pool)
      (min client.remaining_quota client.lead_count) ≠ [] := by
    rw [hps]
    obtain ⟨a, as, hav⟩ := List.exists_cons_of_ne_nil hne
    rw [hav]
    obtain ⟨k, hk⟩ : ∃ k, (min client.remaining_quota client.lead_count).toNat =
        k + 1 := ⟨(min client.remaining_quota client.lead_count).toNat - 1, by omega⟩
    rw [hk]
    simp
  refine (pcd_ok_iff env s w now client pool _).mpr ⟨?_, ?_, hcsv, ?_⟩
  · simpa [List.isEmpty_iff] using hne
  · rw [hfe]
    simpa [List.isEmpty_iff] using hnonempty
  · rw [hfe]

/-- Witness for the amended C6: a quota-5 client against a pool of only 2
eligible leads gets an ordinary under-filled result of 2 leads. -/
theorem claim_C6_witness :
    (process_client_delivery envAll emptyDedup 30 0 clientF [leadA, leadB]).2 =
      .ok (pySliceTo (get_available_leads emptyDedup 30 0 clientF [leadA, leadB])
        (min clientF.remaining_quota clientF.lead_count)).length :=
  claim_C6_amended envAll emptyDedup 30 0 clientF [leadA, leadB] rfl (by decide)
    (by decide) (by decide)

/-- Claim C4: `process_client_delivery` calls `mark_leads_as_delivered`
without its `exclusive` argument, which therefore defaults to `False`, so
the `exclusive_leads` index is never written by any delivery — including a
successful delivery to an exclusive client, after which the delivered
email is still absent from the exclusive index. -/
theorem claim_C4_exclusive_flag_dropped :
    (∀ (env : Env) (s : DedupState) (w now : Int) (client : ClientCfg)
        (pool : List LeadData),
      (process_client_delivery env s w now client pool).1.exclusive_leads =
        s.exclusive_leads) ∧
    (process_client_delivery envAll emptyDedup 30 0 clientE [leadA]).2 = .ok 1 ∧
    is_lead_exclusive_delivered
      (process_client_delivery envAll emptyDedup 30 0 clientE [leadA]).1
      "a@x.com" = false := by
  refine ⟨?_, rfl, rfl⟩
  intro env s w now client pool
  unfold process_client_delivery
  split_ifs <;> simp [mark_leads_as_delivered] <;> split_ifs <;> simp

/-- Claim C7: marking a batch of leads delivered a second time with
identical arguments leaves the JSON-dict index exactly unchanged, and the
database-level `mark_lead_delivered` upsert
(`ON CONFLICT (email, fingerprint) DO NOTHING`) is likewise a no-op on a
duplicate key — in both layers the duplicate write changes nothing and
raises nothing. -/
theorem claim_C7_record_idempotent :
    (∀ (s : DedupState) (emails : List String) (exclusive : Bool) (t : Int),
      mark_leads_as_delivered (mark_leads_as_delivered s emails exclusive t)
          emails exclusive t =
        mark_leads_as_delivered s emails exclusive t) ∧
    (∀ (tbl : List DedupRow) (email fingerprint : String) (exclusive : Bool)
        (t : Int),
      mark_lead_delivered (mark_lead_delivered tbl email fingerprint exclusive t)
          email fingerprint exclusive t =
        mark_lead_delivered tbl email fingerprint exclusive t) :=
  ⟨mark_leads_as_delivered_idem, mark_lead_delivered_idem⟩

/-- Claim C10: `remove_duplicates` is total — whenever the wrapped
computation raises (here: a malformed stored delivery date), the function
returns the original DataFrame unchanged, so every lead passes through,
internal duplicates and recently delivered leads included. -/
theorem claim_C10_remove_duplicates_total
    (rawDelivered : List (String × Option Int)) (w now : Int)
    (df : List LeadData) (e : String)
    (h : remove_duplicates_core rawDelivered w now df = .error e) :
    remove_duplicates rawDelivered w now df = df := by
  unfold remove_duplicates
  rw [h]

/-- Witness for C10: with `a@x.com` recently delivered and one malformed
date in the stored dict, the computation raises and the input — which
contains an internal duplicate of the recently delivered `a@x.com` — is
returned unchanged. -/
theorem claim_C10_witness :
    remove_duplicates_core [("a@x.com", some 9), ("d@x.com", none)] 30 10
        [leadA, leadA] = .error "Invalid isoformat string" ∧
    remove_duplicates [("a@x.com", some 9), ("d@x.com", none)] 30 10
        [leadA, leadA] = [leadA, leadA] :=
  ⟨rfl, claim_C10_remove_duplicates_total _ 30 10 _ _ rfl⟩

end LeadGen
